import Mathlib

/-!
A verification development for the Karl fleet-keepalive aggregator
(`src/Karl/karl.h`), shallowly embedding the data model and the handler
logic the checked properties refer to.

Modelling conventions:
* Machine integers (`uint64_t`, `uint16_t`) are `Nat`; microsecond
  timestamps (`std::chrono::microseconds`, backed by `int64_t`) are `Int`.
  No arithmetic in the modelled paths approaches the overflow boundary.
* `std::unordered_map<std::string, V>` is an association list
  `List (String × V)` with at most one entry per key (`assocSet` preserves
  this); `operator[]`-with-default-0 reads become `(assocLookup …).getD 0`.
* The append-only keepalive stream (`sherlock::Stream` over
  `current::persistence::File`) is a `List StreamRecord`.  The persister
  itself (`Blocks/Persistence`) is not under `src/`; its index assignment
  is pinned by in-tree callers: `sherlock.h` lines 274–311 drive a
  subscriber with `Iterate(index, size)` starting from `index = 0` and
  delivering every entry, and `karl.h` line 767 speaks of "record at
  index 0", so entries carry 0-based indices equal to their list position
  and `Publish` returns the freshly assigned `(index, timestamp)`.
* JSON (de)serialization, `current::strings` helpers and the random
  generator are external collaborators; handlers take already-parsed
  values (`Option ClaireStatus`, with `none` for a parse failure) and the
  random draw as an explicit argument.
* The ingest transaction also updates the `ServerInfo` (time-skew
  hysteresis) and `ClaireBuildInfo` tables (karl.h lines 390–423); no
  checked property mentions them, so the embedded transaction carries the
  `claires` table only.
-/

namespace KarlSpec

/-- Modelled from the spec: `ClaireServiceKey` is declared in
`Karl/locator.h`, which is not under `src/`; per the spec it is
`{ ip: string, port: u16, prefix: string }` with structural equality.
The `prefix` field is named `pfx` here. -/
structure ClaireServiceKey where
  ip : String
  port : Nat
  pfx : String
deriving DecidableEq

/-- Modelled from the spec: `ClaireServiceKey::StatusPageURL()` lives in
`Karl/locator.h` (not under `src/`); the spec gives
`scheme://ip:port<prefix>.current`. -/
def ClaireServiceKey.statusPageURL (k : ClaireServiceKey) : String :=
  "http://" ++ k.ip ++ ":" ++ toString k.port ++ k.pfx ++ ".current"

/-- Modelled from the spec: `ClaireStatus` is declared in
`Karl/schema_claire.h`, not under `src/`.  Fields follow the spec's data
model; `build` is kept opaque as its raw serialized form, and the
polymorphic `runtime` variant is omitted (no checked property touches
it). -/
structure ClaireStatus where
  codename : String
  service : String
  local_port : Nat
  dependencies : List ClaireServiceKey
  build : Option String
  start_time_epoch_microseconds : Int
  uptime_epoch_microseconds : Int
  uptime : String
  last_successful_ping_epoch_microseconds : Option Int
  now : Int
deriving DecidableEq

/-- The `(index, timestamp)` pair (`idxts_t`) attached to every stream
entry. -/
structure IdxTs where
  index : Nat
  us : Int
deriving DecidableEq

/-- `KarlPersistedKeepalive` from karl.h lines 72–75: the envelope
published to the keepalive stream. -/
structure KarlPersistedKeepalive where
  location : ClaireServiceKey
  keepalive : ClaireStatus
deriving DecidableEq

/-- One persisted stream entry: the envelope together with its assigned
`(index, timestamp)`. -/
structure StreamRecord where
  idx_ts : IdxTs
  entry : KarlPersistedKeepalive
deriving DecidableEq

/-- The three registration states of a codename (spec §3 / `schema_karl.h`). -/
inductive ClaireRegisteredState
  | Active
  | DisconnectedByTimeout
  | Deregistered
deriving DecidableEq

/-- Modelled from the spec: `ClaireInfo` is declared in
`Karl/schema_karl.h`, not under `src/`; keyed by `codename` with the
fields the spec lists. -/
structure ClaireInfo where
  codename : String
  service : String
  location : ClaireServiceKey
  reported_timestamp : Int
  url_status_page_direct : String
  registered_state : ClaireRegisteredState
deriving DecidableEq

/-- Modelled from the spec: the default-constructed `ClaireInfo`
(`schema_karl.h` is not under `src/`): empty strings and zeroes.  Both
skeletal-row uses in karl.h overwrite `registered_state` immediately
after construction, so its default is immaterial. -/
def defaultClaireInfo : ClaireInfo :=
  { codename := ""
    service := ""
    location := { ip := "", port := 0, pfx := "" }
    reported_timestamp := 0
    url_status_page_direct := ""
    registered_state := ClaireRegisteredState.Active }

/-- Lookup in an association list keyed by `String`
(`std::unordered_map::find`). -/
def assocLookup {α : Type} : List (String × α) → String → Option α
  | [], _ => none
  | (k, v) :: rest, key => if k = key then some v else assocLookup rest key

/-- Upsert into an association list keyed by `String`
(`std::unordered_map::operator[]=` / storage-table `Add`). -/
def assocSet {α : Type} : List (String × α) → String → α → List (String × α)
  | [], key, v => [(key, v)]
  | (k, w) :: rest, key, v =>
      if k = key then (k, v) :: rest else (k, w) :: assocSet rest key v

/-- The mutable state of one `GenericKarl` instance: the keepalive stream
(A), the `claires` table of the keyed store (B), and the two in-memory
caches (karl.h lines 760–768). -/
structure KarlState where
  stream : List StreamRecord
  claires : List (String × ClaireInfo)
  latest_keepalive_index_plus_one : List (String × Nat)
  services_keepalive_time_cache : List (String × Int)
deriving DecidableEq

/-- A Karl that has just started with both backing files empty. -/
def emptyKarlState : KarlState :=
  { stream := [], claires := [], latest_keepalive_index_plus_one := [],
    services_keepalive_time_cache := [] }

/-- An HTTP response: status code and body. -/
structure HttpResponse where
  code : Nat
  body : String
deriving DecidableEq

/-- Decidable equality for `Except` results, so handler outcomes can be
evaluated on concrete inputs. -/
def exceptDecEq {ε α : Type} [DecidableEq ε] [DecidableEq α] :
    (a b : Except ε α) → Decidable (a = b)
  | Except.error x, Except.error y =>
      if h : x = y then isTrue (by rw [h]) else isFalse (by intro hc; cases hc; exact h rfl)
  | Except.error _, Except.ok _ => isFalse (by intro hc; cases hc)
  | Except.ok _, Except.error _ => isFalse (by intro hc; cases hc)
  | Except.ok x, Except.ok y =>
      if h : x = y then isTrue (by rw [h]) else isFalse (by intro hc; cases hc; exact h rfl)

instance {ε α : Type} [DecidableEq ε] [DecidableEq α] : DecidableEq (Except ε α) :=
  exceptDecEq

/-- The `200 "OK\n"` response. -/
def okResponse : HttpResponse := { code := 200, body := "OK\n" }

/-- The `200 "NOP\n"` response (DELETE without a codename, karl.h line 309). -/
def nopResponse : HttpResponse := { code := 200, body := "NOP\n" }

/-- The `400` response for a query/body mismatch (karl.h line 468). -/
def inconsistentResponse : HttpResponse :=
  { code := 400, body := "Inconsistent URL/body parameters.\n" }

/-- The `400` response for a failed reverse callback (karl.h line 471). -/
def callbackErrorResponse : HttpResponse :=
  { code := 400, body := "Callback error.\n" }

/-- The `400` response for unparseable JSON (karl.h line 473). -/
def jsonParseErrorResponse : HttpResponse :=
  { code := 400, body := "JSON parse error.\n" }

/-- The query-string parameters of a POST keepalive (karl.h lines 283,
313–331): optional `codename`, optional `port` (already run through
`FromString<uint16_t>`), and the presence of `confirm`. -/
structure PostQuery where
  codename : Option String
  port : Option Nat
  confirm : Bool
deriving DecidableEq

/-- The reverse-callback URL built by karl.h lines 314 and 322:
`"http://" + ip + ':' + qs["port"] + "/.current"` followed by
`"?all&rnd" + ToString(rnd)`.  Note the source appends the random number
directly after `rnd`, with no `=` sign. -/
def callbackURL (ip : String) (portParam : String) (rnd : Nat) : String :=
  ("http://" ++ ip ++ ":" ++ portParam ++ "/.current") ++ ("?all&rnd" ++ toString rnd)

/-- The status-JSON selection of karl.h lines 319–329: with `confirm` and
`port` both present the callback response is used (outer `none` models a
`NetworkException`, inner `none` a `ClaireStatus` parse failure of the
chosen document), otherwise the request body is used. -/
def chooseStatusJson (qs : PostQuery) (requestBody : Option ClaireStatus)
    (callback : Option (Option ClaireStatus)) : Except HttpResponse ClaireStatus :=
  if qs.confirm && qs.port.isSome then
    match callback with
    | none => Except.error callbackErrorResponse
    | some none => Except.error jsonParseErrorResponse
    | some (some b) => Except.ok b
  else
    match requestBody with
    | none => Except.error jsonParseErrorResponse
    | some b => Except.ok b

/-- The URL/body consistency check of karl.h lines 330–331. -/
def checkConsistent (qs : PostQuery) (body : ClaireStatus) : Bool :=
  (match qs.codename with
   | none => true
   | some c => c == body.codename) &&
  (match qs.port with
   | none => true
   | some p => p == body.local_port)

/-- The `location` built by karl.h lines 332–335: the peer IP, the body's
`local_port`, and the fixed prefix `"/"`. -/
def mkLocation (ip : String) (body : ClaireStatus) : ClaireServiceKey :=
  { ip := ip, port := body.local_port, pfx := "/" }

/-- The stream record the ingest path publishes (karl.h lines 366–371),
with the `(index, timestamp)` the persister assigns to it: the next
0-based index and the publish time. -/
def publishedKeepaliveRecord (st : KarlState) (body : ClaireStatus) (ip : String)
    (now : Int) : StreamRecord :=
  { idx_ts := { index := st.stream.length, us := now }
    entry := { location := mkLocation ip body, keepalive := body } }

/-- The `claires`-table part of the ingest read-write transaction
(karl.h lines 424–452): upsert when the row is absent, its location
differs, or its state is not `Active`; an existing row is loaded first so
unrelated fields are not reset. -/
def claireIngestUpsert (claires : List (String × ClaireInfo)) (codename service : String)
    (location : ClaireServiceKey) (now : Int) : List (String × ClaireInfo) :=
  let old := assocLookup claires codename
  let needUpdate : Bool :=
    match old with
    | none => true
    | some info =>
        !(info.location == location) || !(info.registered_state == ClaireRegisteredState.Active)
  if needUpdate then
    assocSet claires codename
      { (old.getD defaultClaireInfo) with
          codename := codename
          service := service
          location := location
          reported_timestamp := now
          url_status_page_direct := location.statusPageURL
          registered_state := ClaireRegisteredState.Active }
  else claires

/-- The four state mutations of a successful keepalive ingest, in the
program order of karl.h lines 365–466:
1. publish the envelope to the keepalive stream (line 371, inside);
2. store the index returned by `Publish` into
   `latest_keepalive_index_plus_one_` — the source stores `.index`
   itself, with no `+ 1` (line 371);
3. commit the read-write transaction on the keyed store (lines 381–455);
4. refresh `services_keepalive_time_cache_` (lines 456–466). -/
def ingestSteps (body : ClaireStatus) (ip : String) (now : Int) (st0 : KarlState) :
    List (KarlState → KarlState) :=
  [ fun st => { st with stream := st.stream ++ [publishedKeepaliveRecord st0 body ip now] },
    fun st => { st with latest_keepalive_index_plus_one :=
                  assocSet st.latest_keepalive_index_plus_one body.codename st0.stream.length },
    fun st => { st with claires :=
                  claireIngestUpsert st.claires body.codename body.service (mkLocation ip body) now },
    fun st => { st with services_keepalive_time_cache :=
                  assocSet st.services_keepalive_time_cache body.codename now } ]

/-- The state after the first `k` mutations of a successful ingest: the
states reachable while the POST handler is in flight. -/
def ingestPrefix (st : KarlState) (body : ClaireStatus) (ip : String) (now : Int)
    (k : Nat) : KarlState :=
  ((ingestSteps body ip now st).take k).foldl (fun s f => f s) st

/-- The POST branch of `GenericKarl::Serve` (karl.h lines 311–476):
choose the status JSON, check URL/body consistency, and on success run
the four ingest mutations in order. -/
def servePost (st : KarlState) (qs : PostQuery) (ip : String) (now : Int)
    (requestBody : Option ClaireStatus) (callback : Option (Option ClaireStatus)) :
    KarlState × HttpResponse :=
  match chooseStatusJson qs requestBody callback with
  | Except.error resp => (st, resp)
  | Except.ok body =>
      if checkConsistent qs body then
        ((ingestSteps body ip now st).foldl (fun s f => f s) st, okResponse)
      else (st, inconsistentResponse)

/-- The DELETE branch of `GenericKarl::Serve` (karl.h lines 285–310):
with a codename, upsert the row (skeletal when absent) to `Deregistered`,
drop the codename from the keepalive time cache, and answer `OK`;
without one, answer `NOP`. -/
def serveDelete (st : KarlState) (qsCodename : Option String) : KarlState × HttpResponse :=
  match qsCodename with
  | some codename =>
      let old := assocLookup st.claires codename
      let claire :=
        { (old.getD { defaultClaireInfo with codename := codename }) with
            registered_state := ClaireRegisteredState.Deregistered }
      ({ st with
          claires := assocSet st.claires codename claire
          services_keepalive_time_cache :=
            st.services_keepalive_time_cache.filter (fun p => !(p.1 == codename)) },
       okResponse)
  | none => (st, nopResponse)

/-- The spec's value for the snapshot cache, written from the spec's
words for comparison with the code: "`latest_keepalive_index_plus_one[c]`
equals the max+1 of (A)-indices whose entry's `keepalive.codename == c`,
or 0 if none." -/
def specLatestKeepaliveIndexPlusOne (log : List StreamRecord) (c : String) : Nat :=
  log.foldl
    (fun acc e =>
      if e.entry.keepalive.codename = c then max acc (e.idx_ts.index + 1) else acc)
    0

/-- The one-shot full scan of `GenericKarl::ServeSnapshot` (karl.h lines
504–510): walk the whole log, overwriting `index` with
`e.idx_ts.index + 1` at every entry whose codename matches. -/
def scanLatestIndexPlusOne (log : List StreamRecord) (codename : String) : Nat :=
  log.foldl
    (fun acc e => if e.entry.keepalive.codename = codename then e.idx_ts.index + 1 else acc)
    0

/-- Modelled from the spec: `SnapshotOfKeepalive` is declared in
`Karl/schema_claire.h`, not under `src/`; karl.h lines 520–528 construct
it from `e.idx_ts.us - now` (the rebased age) and the keepalive. -/
structure SnapshotOfKeepalive where
  age_us : Int
  status : ClaireStatus
deriving DecidableEq

/-- The `404` response of `GenericKarl::ServeSnapshot` (karl.h line 533). -/
def snapshotNotFoundResponse (codename : String) : HttpResponse :=
  { code := 404, body := "No keepalives from " ++ codename ++ " have been received." }

/-- The keepalive with its `build` stripped (`?nobuild`, karl.h lines
525–526). -/
def stripBuild (kp : ClaireStatus) : ClaireStatus := { kp with build := none }

/-- `GenericKarl::ServeSnapshot` (karl.h lines 495–536): read the cached
index-plus-one; if it is zero, fall back to the full scan and memoize its
result (`std::max` with the cached slot); with a nonzero index, answer
with the entry `Iterate(index - 1)` yields, rebasing its timestamp to
`now`; otherwise `404`. -/
def serveSnapshot (st : KarlState) (codename : String) (nobuild : Bool) (now : Int) :
    KarlState × Except HttpResponse SnapshotOfKeepalive :=
  let index0 := (assocLookup st.latest_keepalive_index_plus_one codename).getD 0
  let index := if index0 = 0 then scanLatestIndexPlusOne st.stream codename else index0
  let st1 :=
    if index0 = 0 ∧ index ≠ 0 then
      { st with latest_keepalive_index_plus_one :=
          assocSet st.latest_keepalive_index_plus_one codename (max index0 index) }
    else st
  if index ≠ 0 then
    match st.stream[index - 1]? with
    | some e =>
        let kp := if nobuild then stripBuild e.entry.keepalive else e.entry.keepalive
        (st1, Except.ok { age_us := e.idx_ts.us - now, status := kp })
    | none => (st1, Except.error (snapshotNotFoundResponse codename))
  else (st1, Except.error (snapshotNotFoundResponse codename))

/-- The timed-out codenames of one reconciler iteration (karl.h lines
232–235): cache entries with `now - last > service_timeout_interval`. -/
def timedOutCodenames (cache : List (String × Int)) (now timeout : Int) : List String :=
  (cache.filter (fun p => decide (timeout < now - p.2))).map Prod.fst

/-- The cache entries surviving one reconciler iteration (karl.h lines
236–239). -/
def survivingCache (cache : List (String × Int)) (now timeout : Int) : List (String × Int) :=
  cache.filter (fun p => !decide (timeout < now - p.2))

/-- The `ClaireInfo` written for a timed-out codename (karl.h lines
244–253): the existing row if any, else a skeletal one carrying the
codename, with `registered_state` forced to `DisconnectedByTimeout`. -/
def markDisconnected (old : Option ClaireInfo) (c : String) : ClaireInfo :=
  match old with
  | some info => { info with registered_state := ClaireRegisteredState.DisconnectedByTimeout }
  | none => { defaultClaireInfo with
                codename := c
                registered_state := ClaireRegisteredState.DisconnectedByTimeout }

/-- One timed-out upsert inside the reconciler's read-write transaction. -/
def disconnectClaire (claires : List (String × ClaireInfo)) (c : String) :
    List (String × ClaireInfo) :=
  assocSet claires c (markDisconnected (assocLookup claires c) c)

/-- One iteration of `GenericKarl::StateUpdateThread` (karl.h lines
226–257), up to its nginx call and sleep: drop the timed-out cache
entries and upsert each timed-out codename to `DisconnectedByTimeout`. -/
def stateUpdateIteration (st : KarlState) (now timeout : Int) : KarlState :=
  { st with
      services_keepalive_time_cache := survivingCache st.services_keepalive_time_cache now timeout
      claires := (timedOutCodenames st.services_keepalive_time_cache now timeout).foldl
        disconnectClaire st.claires }

/-- The time-window parameters of a GET status request (karl.h lines
541–569).  `m`, `h` and `d` are parsed by `FromString<double>`; they are
modelled as the integral counts every checked property uses. -/
structure StatusQuery where
  q_from : Option Int
  q_to : Option Int
  q_m : Option Nat
  q_h : Option Nat
  q_d : Option Nat
  q_interval_us : Option Int
deriving DecidableEq

/-- The `from` bound of `BuildStatusAndRespondWithIt` (karl.h lines
541–559): `from` verbatim, else `now - m*60s`, else `now - h*1h`, else
`now - d*24h`, else `now -` five minutes. -/
def computeFrom (q : StatusQuery) (now : Int) : Int :=
  match q.q_from with
  | some v => v
  | none =>
    match q.q_m with
    | some m => now - (m : Int) * 60000000
    | none =>
      match q.q_h with
      | some h => now - (h : Int) * 3600000000
      | none =>
        match q.q_d with
        | some d => now - (d : Int) * 86400000000
        | none => now - 300000000

/-- The `to` bound of `BuildStatusAndRespondWithIt` (karl.h lines
560–569): `to` verbatim, else `from + interval_us`, else `now`. -/
def computeTo (q : StatusQuery) (now fromTime : Int) : Int :=
  match q.q_to with
  | some v => v
  | none =>
    match q.q_interval_us with
    | some i => fromTime + i
    | none => now

/-- The time window as the checked claim words it, written from the
spec's words for comparison with the code: `from`/`to` verbatim when both
given; else `[from, from + interval_us]` when `from` and `interval_us`
are given; else `[now - m*60s, now]` (resp. hours, days); else the
default five-minute window ending at `now`. -/
def claimedWindow (q : StatusQuery) (now : Int) : Int × Int :=
  match q.q_from, q.q_to with
  | some f, some t => (f, t)
  | _, _ =>
    match q.q_from, q.q_interval_us with
    | some f, some i => (f, f + i)
    | _, _ =>
      match q.q_m with
      | some m => (now - (m : Int) * 60000000, now)
      | none =>
        match q.q_h with
        | some h => (now - (h : Int) * 3600000000, now)
        | none =>
          match q.q_d with
          | some d => (now - (d : Int) * 86400000000, now)
          | none => (now - 300000000, now)

/-- The stream entries the status builder iterates over (karl.h lines
584–585): those with `from <= e.idx_ts.us < to`. -/
def windowEntries (log : List StreamRecord) (fromTime toTime : Int) : List StreamRecord :=
  log.filter (fun e => decide (fromTime ≤ e.idx_ts.us) && decide (e.idx_ts.us < toTime))

/-- The liveness tag of a per-codename report (karl.h lines 596–608).
The source also renders human-readable strings via
`TimeIntervalAsHumanReadableString` (an external collaborator); the
underlying quantities are kept instead. -/
inductive ServiceCurrently
  | up (start_time_epoch_microseconds : Int) (last_keepalive_us : Int)
      (projected_uptime_us : Int)
  | down (start_time_epoch_microseconds : Int) (last_keepalive_us : Int) (uptime : String)
deriving DecidableEq

/-- The per-codename `ProtoReport` of `BuildStatusAndRespondWithIt`
(karl.h lines 575–612), restricted to the fields the checked properties
mention. -/
structure ProtoReport where
  currently : ServiceCurrently
  dependencies : List ClaireServiceKey
deriving DecidableEq

/-- The report built from one stream entry (karl.h lines 593–611): up
iff `now - e.idx_ts.us < service_timeout_interval`, with the projected
uptime; down otherwise, carrying the keepalive's reported `uptime`. -/
def mkProtoReport (e : StreamRecord) (now timeout : Int) : ProtoReport :=
  { currently :=
      if now - e.idx_ts.us < timeout then
        ServiceCurrently.up e.entry.keepalive.start_time_epoch_microseconds e.idx_ts.us
          (e.entry.keepalive.uptime_epoch_microseconds + (now - e.idx_ts.us))
      else
        ServiceCurrently.down e.entry.keepalive.start_time_epoch_microseconds e.idx_ts.us
          e.entry.keepalive.uptime
    dependencies := e.entry.keepalive.dependencies }

/-- The `report_for_codename` map after the window iteration (karl.h
lines 580–614): each in-window entry overwrites its codename's slot, so
the last in-window entry per codename wins. -/
def reportForCodename (log : List StreamRecord) (fromTime toTime now timeout : Int) :
    List (String × ProtoReport) :=
  (windowEntries log fromTime toTime).foldl
    (fun m e => assocSet m e.entry.keepalive.codename (mkProtoReport e now timeout)) []

/-- The four externally observable actions of `GenericKarl::~GenericKarl`
(karl.h lines 204–215), in source order: set `destructing_`, commit the
final `KarlInfo` record with `up = false` (the transaction is `Wait()`-ed
on), notify the reconciler's condition variable, join the worker thread.
The notify/join pair sits under an always-true `joinable()` guard. -/
inductive DtorStep
  | setDestructingFlag
  | writeFinalKarlInfoUpFalse
  | notifyUpdateThread
  | joinUpdateThread
deriving DecidableEq

/-- The destructor's action sequence, transcribed from karl.h lines
204–215. -/
def destructorSteps : List DtorStep :=
  [DtorStep.setDestructingFlag, DtorStep.writeFinalKarlInfoUpFalse,
   DtorStep.notifyUpdateThread, DtorStep.joinUpdateThread]

theorem assocLookup_assocSet_self {α : Type} (l : List (String × α)) (k : String) (v : α) :
    assocLookup (assocSet l k v) k = some v := by
  induction l with
  | nil => simp [assocSet, assocLookup]
  | cons hd tl ih =>
      obtain ⟨k', w⟩ := hd
      by_cases h : k' = k
      · simp [assocSet, assocLookup, h]
      · simp [assocSet, assocLookup, h, ih]

theorem assocLookup_assocSet_ne {α : Type} (l : List (String × α)) (k k' : String) (v : α)
    (h : k ≠ k') : assocLookup (assocSet l k v) k' = assocLookup l k' := by
  induction l with
  | nil => simp [assocSet, assocLookup, h]
  | cons hd tl ih =>
      obtain ⟨k₀, w⟩ := hd
      by_cases h0 : k₀ = k
      · subst h0
        simp [assocSet, assocLookup, h]
      · simp [assocSet, assocLookup, h0, ih]

theorem assocLookup_filter_out {α : Type} (l : List (String × α)) (c : String) :
    assocLookup (l.filter (fun p => !(p.1 == c))) c = none := by
  induction l with
  | nil => simp [assocLookup]
  | cons hd tl ih =>
      obtain ⟨k, v⟩ := hd
      by_cases h : k = c
      · simpa [List.filter_cons, h] using ih
      · have hb : (k == c) = false := beq_eq_false_iff_ne.mpr h
        simp [List.filter_cons, hb, assocLookup, h, ih]

/-- C1: the spec (and the code's own comment at karl.h lines 765–767)
requires `latest_keepalive_index_plus_one[c]` to be one plus the stream
index of the latest keepalive for `c`, zero meaning "never seen"; but the
POST handler (karl.h line 371) stores the raw publish index.  Evaluating
the code on its first ever keepalive (codename `alpha`, published at
index 0): the cache slot is left at `0` ("never seen") while the value
the claim requires is `1`. -/
theorem latest_keepalive_cache_off_by_one :
    (assocLookup
        (servePost emptyKarlState
            { codename := none, port := none, confirm := false }
            "10.0.0.1" 100
            (some { codename := "alpha", service := "S", local_port := 7000,
                    dependencies := [], build := none,
                    start_time_epoch_microseconds := 0,
                    uptime_epoch_microseconds := 0, uptime := "0s",
                    last_successful_ping_epoch_microseconds := none, now := 0 })
            none).1.latest_keepalive_index_plus_one
        "alpha").getD 0 = 0 ∧
    specLatestKeepaliveIndexPlusOne
        (servePost emptyKarlState
            { codename := none, port := none, confirm := false }
            "10.0.0.1" 100
            (some { codename := "alpha", service := "S", local_port := 7000,
                    dependencies := [], build := none,
                    start_time_epoch_microseconds := 0,
                    uptime_epoch_microseconds := 0, uptime := "0s",
                    last_successful_ping_epoch_microseconds := none, now := 0 })
            none).1.stream
        "alpha" = 1 := by
  decide

/-- The first of two keepalives ingested for `svcA` (published at stream
index 0, time 100). -/
def c2FirstKeepalive : ClaireStatus :=
  { codename := "svcA", service := "S", local_port := 7000, dependencies := [],
    build := none, start_time_epoch_microseconds := 100,
    uptime_epoch_microseconds := 0, uptime := "0s",
    last_successful_ping_epoch_microseconds := none, now := 0 }

/-- The second of two keepalives ingested for `svcA` (published at stream
index 1, time 200). -/
def c2SecondKeepalive : ClaireStatus :=
  { codename := "svcA", service := "S", local_port := 7000, dependencies := [],
    build := none, start_time_epoch_microseconds := 100,
    uptime_epoch_microseconds := 100, uptime := "100us",
    last_successful_ping_epoch_microseconds := none, now := 100 }

/-- The Karl state after ingesting `c2FirstKeepalive` at t=100 and then
`c2SecondKeepalive` at t=200, through the POST handler. -/
def c2State : KarlState :=
  (servePost
      (servePost emptyKarlState { codename := none, port := none, confirm := false }
          "10.0.0.1" 100 (some c2FirstKeepalive) none).1
      { codename := none, port := none, confirm := false }
      "10.0.0.1" 200 (some c2SecondKeepalive) none).1

/-- C2: after two keepalives for `svcA` (t=100 at index 0, t=200 at
index 1), `GET /snapshot/svcA` at t=300 answers with the t=100 keepalive,
not the t=200 one the claim (and spec scenario 6) requires: the POST
handler cached the raw publish index 1 (karl.h line 371), so the snapshot
path reads the entry at `Iterate(1 - 1) = 0`. -/
theorem snapshot_returns_stale_keepalive :
    (serveSnapshot c2State "svcA" false 300).2 =
      Except.ok { age_us := -200, status := c2FirstKeepalive } ∧
    c2FirstKeepalive ≠ c2SecondKeepalive := by
  decide

/-- C4 counterexample: the claim puts the final `KarlInfo{up=false}`
write after the worker join, but in karl.h lines 204–215 the write
(line 206) precedes the join (line 213). -/
theorem destructor_write_not_after_join :
    ¬ (destructorSteps.indexOf DtorStep.joinUpdateThread <
        destructorSteps.indexOf DtorStep.writeFinalKarlInfoUpFalse) := by
  decide

/-- C4 (amended): in the destructor the shutdown flag is set first, then
the final `KarlInfo` record with `up = false` is written, then the
reconciler's condition variable is signalled, and the worker thread is
joined last. -/
theorem destructor_order_amended :
    destructorSteps.indexOf DtorStep.setDestructingFlag <
        destructorSteps.indexOf DtorStep.writeFinalKarlInfoUpFalse ∧
    destructorSteps.indexOf DtorStep.writeFinalKarlInfoUpFalse <
        destructorSteps.indexOf DtorStep.notifyUpdateThread ∧
    destructorSteps.indexOf DtorStep.notifyUpdateThread <
        destructorSteps.indexOf DtorStep.joinUpdateThread := by
  decide

/-- C8 counterexample: for a query with `m=1` and `interval_us=7` (no
`from`, no `to`), the code's window ends at `from + interval_us`, not at
`now` as the claim's precedence ("else from = now - m*60s ... with
to = now") requires. -/
theorem window_precedence_counterexample :
    (computeFrom { q_from := none, q_to := none, q_m := some 1, q_h := none,
                   q_d := none, q_interval_us := some 7 } 0,
     computeTo { q_from := none, q_to := none, q_m := some 1, q_h := none,
                 q_d := none, q_interval_us := some 7 } 0
       (computeFrom { q_from := none, q_to := none, q_m := some 1, q_h := none,
                      q_d := none, q_interval_us := some 7 } 0)) ≠
    claimedWindow { q_from := none, q_to := none, q_m := some 1, q_h := none,
                    q_d := none, q_interval_us := some 7 } 0 := by
  decide

/-- C8 (amended): the report window's two bounds are selected
independently — `from` is the `from` parameter verbatim, else
`now - m*60s` (minutes taking precedence over hours over days), else
`now - h*3600s`, else `now - d*86400s`, else `now - 5min`; `to` is the
`to` parameter verbatim, else `from + interval_us`, else `now` — and a
stream entry contributes to the report exactly when
`from ≤ timestamp < to`. -/
theorem window_selection_amended :
    (∀ (q : StatusQuery) (now f : Int), q.q_from = some f → computeFrom q now = f) ∧
    (∀ (q : StatusQuery) (now fr t : Int), q.q_to = some t → computeTo q now fr = t) ∧
    (∀ (q : StatusQuery) (now fr i : Int), q.q_to = none → q.q_interval_us = some i →
        computeTo q now fr = fr + i) ∧
    (∀ (q : StatusQuery) (now fr : Int), q.q_to = none → q.q_interval_us = none →
        computeTo q now fr = now) ∧
    (∀ (q : StatusQuery) (now : Int) (m : Nat), q.q_from = none → q.q_m = some m →
        computeFrom q now = now - (m : Int) * 60000000) ∧
    (∀ (q : StatusQuery) (now : Int) (h : Nat), q.q_from = none → q.q_m = none →
        q.q_h = some h → computeFrom q now = now - (h : Int) * 3600000000) ∧
    (∀ (q : StatusQuery) (now : Int) (d : Nat), q.q_from = none → q.q_m = none →
        q.q_h = none → q.q_d = some d → computeFrom q now = now - (d : Int) * 86400000000) ∧
    (∀ (q : StatusQuery) (now : Int), q.q_from = none → q.q_m = none → q.q_h = none →
        q.q_d = none → computeFrom q now = now - 300000000) ∧
    (∀ (log : List StreamRecord) (f t : Int) (e : StreamRecord),
        e ∈ windowEntries log f t ↔ e ∈ log ∧ f ≤ e.idx_ts.us ∧ e.idx_ts.us < t) := by
  refine ⟨?_, ?_, ?_, ?_, ?_, ?_, ?_, ?_, ?_⟩
  · intro q now f h
    simp [computeFrom, h]
  · intro q now fr t h
    simp [computeTo, h]
  · intro q now fr i h1 h2
    simp [computeTo, h1, h2]
  · intro q now fr h1 h2
    simp [computeTo, h1, h2]
  · intro q now m h1 h2
    simp [computeFrom, h1, h2]
  · intro q now h h1 h2 h3
    simp [computeFrom, h1, h2, h3]
  · intro q now d h1 h2 h3 h4
    simp [computeFrom, h1, h2, h3, h4]
  · intro q now h1 h2 h3 h4
    simp [computeFrom, h1, h2, h3, h4]
  · intro log f t e
    simp [windowEntries, List.mem_filter, and_assoc]

/-- C8 witness: the amended selection evaluated at a concrete query with
only `from` given. -/
theorem window_selection_amended_witness :
    ({ q_from := some 41, q_to := none, q_m := none, q_h := none, q_d := none,
       q_interval_us := none } : StatusQuery).q_from = some 41 ∧
    computeFrom { q_from := some 41, q_to := none, q_m := none, q_h := none,
                  q_d := none, q_interval_us := none } 1000 = 41 :=
  ⟨rfl,
   window_selection_amended.1
     { q_from := some 41, q_to := none, q_m := none, q_h := none, q_d := none,
       q_interval_us := none }
     1000 41 rfl⟩

theorem string_append_assoc (a b c : String) : a ++ b ++ c = a ++ (b ++ c) := by
  cases a with | mk da =>
  cases b with | mk db =>
  cases c with | mk dc =>
  show String.mk (da ++ db ++ dc) = String.mk (da ++ (db ++ dc))
  rw [List.append_assoc]

/-- C3 counterexample: the source (karl.h line 322) appends
`"?all&rnd" + ToString(n)` with no `=` sign, so the callback URL at a
concrete peer, port and random draw differs from the claim's
`…?all&rnd=<n>`. -/
theorem callback_url_no_equals_sign :
    callbackURL "10.0.0.1" "7000" 1500000000 ≠
      "http://10.0.0.1:7000/.current?all&rnd=1500000000" := by
  decide

/-- C3 (amended): with `confirm` and `port` both present the handler
issues its outbound GET to exactly
`http://<peer-ip>:<port>/.current?all&rnd<n>` — the random number is
appended directly after `rnd`, with no `=` — for an integer `n` in
[1e9, 2e9); the callback's response body replaces the request body as the
status JSON; and a network failure of the callback yields a 400 response
with body "Callback error.\n". -/
theorem callback_url_and_failure_handling :
    (∀ (ip portParam : String) (n : Nat), 1000000000 ≤ n → n < 2000000000 →
        callbackURL ip portParam n =
          "http://" ++ ip ++ ":" ++ portParam ++ "/.current?all&rnd" ++ toString n) ∧
    (∀ (qs : PostQuery) (requestBody : Option ClaireStatus) (cb : ClaireStatus),
        qs.confirm = true → qs.port.isSome = true →
        chooseStatusJson qs requestBody (some (some cb)) = Except.ok cb) ∧
    (∀ (st : KarlState) (qs : PostQuery) (ip : String) (now : Int)
        (requestBody : Option ClaireStatus),
        qs.confirm = true → qs.port.isSome = true →
        servePost st qs ip now requestBody none = (st, callbackErrorResponse)) := by
  refine ⟨?_, ?_, ?_⟩
  · intro ip portParam n _ _
    have hlit : ("/.current" ++ "?all&rnd" : String) = "/.current?all&rnd" := by decide
    show ("http://" ++ ip ++ ":" ++ portParam ++ "/.current") ++ ("?all&rnd" ++ toString n) = _
    rw [string_append_assoc ("http://" ++ ip ++ ":" ++ portParam) "/.current"
          ("?all&rnd" ++ toString n),
        ← string_append_assoc "/.current" "?all&rnd" (toString n), hlit]
    exact (string_append_assoc ("http://" ++ ip ++ ":" ++ portParam) "/.current?all&rnd"
      (toString n)).symm
  · intro qs requestBody cb h1 h2
    simp [chooseStatusJson, h1, h2]
  · intro st qs ip now requestBody h1 h2
    simp [servePost, chooseStatusJson, h1, h2]

/-- C3 witness: the amended behaviour evaluated at a concrete peer, port
and random draw, and at a concrete failing callback. -/
theorem callback_url_and_failure_handling_witness :
    (1000000000 ≤ 1500000000 ∧ 1500000000 < 2000000000) ∧
    callbackURL "10.0.0.1" "7000" 1500000000 =
      "http://" ++ "10.0.0.1" ++ ":" ++ "7000" ++ "/.current?all&rnd" ++
        toString 1500000000 ∧
    servePost emptyKarlState { codename := some "svcA", port := some 7000, confirm := true }
        "10.0.0.1" 0 none none = (emptyKarlState, callbackErrorResponse) :=
  ⟨⟨by decide, by decide⟩,
   callback_url_and_failure_handling.1 "10.0.0.1" "7000" 1500000000 (by decide) (by decide),
   callback_url_and_failure_handling.2.2 emptyKarlState
     { codename := some "svcA", port := some 7000, confirm := true } "10.0.0.1" 0 none
     rfl rfl⟩

/-- C5: along a successful keepalive ingest, any reachable intermediate
state whose `claires` table differs from the pre-ingest one (i.e. the
read-write transaction has committed) already contains the published
envelope in the keepalive stream: the publish (karl.h line 371) strictly
precedes the store commit (lines 381–455), so "store committed, stream
missing" is unreachable. -/
theorem ingest_publishes_before_store_commit
    (st : KarlState) (body : ClaireStatus) (ip : String) (now : Int) (k : Nat)
    (h : (ingestPrefix st body ip now k).claires ≠ st.claires) :
    publishedKeepaliveRecord st body ip now ∈ (ingestPrefix st body ip now k).stream := by
  match k with
  | 0 => exact absurd rfl h
  | 1 => exact absurd rfl h
  | 2 => exact absurd rfl h
  | Nat.succ (Nat.succ (Nat.succ n)) =>
      have hs : (ingestPrefix st body ip now (n + 3)).stream =
          st.stream ++ [publishedKeepaliveRecord st body ip now] := by
        cases n with
        | zero => rfl
        | succ m =>
            show (((ingestSteps body ip now st).take (m + 4)).foldl (fun s f => f s) st).stream = _
            rw [List.take_of_length_le (by simp [ingestSteps])]
            rfl
      rw [hs]
      exact List.mem_append_right _ (List.mem_singleton.mpr rfl)

/-- C5 witness: a concrete ingest from the empty state, at the prefix
where the store transaction has just committed. -/
theorem ingest_publishes_before_store_commit_witness :
    (ingestPrefix emptyKarlState
        { codename := "svcW", service := "S", local_port := 7000, dependencies := [],
          build := none, start_time_epoch_microseconds := 0,
          uptime_epoch_microseconds := 0, uptime := "0s",
          last_successful_ping_epoch_microseconds := none, now := 0 }
        "10.0.0.1" 5 3).claires ≠ emptyKarlState.claires ∧
    publishedKeepaliveRecord emptyKarlState
        { codename := "svcW", service := "S", local_port := 7000, dependencies := [],
          build := none, start_time_epoch_microseconds := 0,
          uptime_epoch_microseconds := 0, uptime := "0s",
          last_successful_ping_epoch_microseconds := none, now := 0 }
        "10.0.0.1" 5 ∈
      (ingestPrefix emptyKarlState
          { codename := "svcW", service := "S", local_port := 7000, dependencies := [],
            build := none, start_time_epoch_microseconds := 0,
            uptime_epoch_microseconds := 0, uptime := "0s",
            last_successful_ping_epoch_microseconds := none, now := 0 }
          "10.0.0.1" 5 3).stream :=
  ⟨by decide,
   ingest_publishes_before_store_commit emptyKarlState
     { codename := "svcW", service := "S", local_port := 7000, dependencies := [],
       build := none, start_time_epoch_microseconds := 0,
       uptime_epoch_microseconds := 0, uptime := "0s",
       last_successful_ping_epoch_microseconds := none, now := 0 }
     "10.0.0.1" 5 3 (by decide)⟩

/-- C6: when the chosen status JSON parses to `body` and the query's
`codename` differs from `body.codename`, or the query's `port` differs
from `body.local_port`, the POST handler answers 400
"Inconsistent URL/body parameters.\n" and leaves the state untouched:
nothing is published to the stream and no store transaction runs
(karl.h lines 329–331 and 467–469). -/
theorem inconsistent_params_rejected
    (st : KarlState) (qs : PostQuery) (ip : String) (now : Int)
    (requestBody : Option ClaireStatus) (callback : Option (Option ClaireStatus))
    (b : ClaireStatus)
    (hb : chooseStatusJson qs requestBody callback = Except.ok b)
    (hmis : (∃ c, qs.codename = some c ∧ c ≠ b.codename) ∨
            (∃ p, qs.port = some p ∧ p ≠ b.local_port)) :
    servePost st qs ip now requestBody callback = (st, inconsistentResponse) := by
  have hcc : checkConsistent qs b = false := by
    rcases hmis with ⟨c, hc, hne⟩ | ⟨p, hp, hne⟩
    · simp [checkConsistent, hc, hne]
    · simp [checkConsistent, hp, hne]
  simp [servePost, hb, hcc]

/-- C6 witness: a concrete query codename `svcB` against a body whose
codename is `svcA`. -/
theorem inconsistent_params_rejected_witness :
    chooseStatusJson { codename := some "svcB", port := none, confirm := false }
        (some { codename := "svcA", service := "S", local_port := 7000, dependencies := [],
                build := none, start_time_epoch_microseconds := 0,
                uptime_epoch_microseconds := 0, uptime := "0s",
                last_successful_ping_epoch_microseconds := none, now := 0 })
        none =
      Except.ok { codename := "svcA", service := "S", local_port := 7000, dependencies := [],
                  build := none, start_time_epoch_microseconds := 0,
                  uptime_epoch_microseconds := 0, uptime := "0s",
                  last_successful_ping_epoch_microseconds := none, now := 0 } ∧
    servePost emptyKarlState { codename := some "svcB", port := none, confirm := false }
        "10.0.0.1" 100
        (some { codename := "svcA", service := "S", local_port := 7000, dependencies := [],
                build := none, start_time_epoch_microseconds := 0,
                uptime_epoch_microseconds := 0, uptime := "0s",
                last_successful_ping_epoch_microseconds := none, now := 0 })
        none = (emptyKarlState, inconsistentResponse) :=
  ⟨by decide,
   inconsistent_params_rejected emptyKarlState
     { codename := some "svcB", port := none, confirm := false } "10.0.0.1" 100
     (some { codename := "svcA", service := "S", local_port := 7000, dependencies := [],
             build := none, start_time_epoch_microseconds := 0,
             uptime_epoch_microseconds := 0, uptime := "0s",
             last_successful_ping_epoch_microseconds := none, now := 0 })
     none
     { codename := "svcA", service := "S", local_port := 7000, dependencies := [],
       build := none, start_time_epoch_microseconds := 0,
       uptime_epoch_microseconds := 0, uptime := "0s",
       last_successful_ping_epoch_microseconds := none, now := 0 }
     (by decide) (Or.inl ⟨"svcB", rfl, by decide⟩)⟩

/-- C10: a DELETE with a codename that has no `ClaireInfo` row creates a
skeletal row carrying that codename with `registered_state =
Deregistered`, removes the codename from the keepalive time cache, and
answers 200 "OK\n" (karl.h lines 285–306). -/
theorem deregister_unknown_codename_creates_row
    (st : KarlState) (c : String) (h : assocLookup st.claires c = none) :
    (serveDelete st (some c)).2 = okResponse ∧
    assocLookup (serveDelete st (some c)).1.claires c =
      some { defaultClaireInfo with
               codename := c, registered_state := ClaireRegisteredState.Deregistered } ∧
    assocLookup (serveDelete st (some c)).1.services_keepalive_time_cache c = none := by
  refine ⟨rfl, ?_, ?_⟩
  · simp [serveDelete, h, assocLookup_assocSet_self]
  · simpa [serveDelete] using assocLookup_filter_out st.services_keepalive_time_cache c

/-- C10 witness: deleting the unknown codename `x` from a Karl that
knows another codename and still caches a keepalive time for `x`. -/
theorem deregister_unknown_codename_creates_row_witness :
    assocLookup
        ({ stream := [], claires := [("other", defaultClaireInfo)],
           latest_keepalive_index_plus_one := [],
           services_keepalive_time_cache := [("x", 5)] } : KarlState).claires "x" = none ∧
    ((serveDelete
        { stream := [], claires := [("other", defaultClaireInfo)],
          latest_keepalive_index_plus_one := [],
          services_keepalive_time_cache := [("x", 5)] } (some "x")).2 = okResponse ∧
     assocLookup (serveDelete
        { stream := [], claires := [("other", defaultClaireInfo)],
          latest_keepalive_index_plus_one := [],
          services_keepalive_time_cache := [("x", 5)] } (some "x")).1.claires "x" =
       some { defaultClaireInfo with
                codename := "x", registered_state := ClaireRegisteredState.Deregistered } ∧
     assocLookup (serveDelete
        { stream := [], claires := [("other", defaultClaireInfo)],
          latest_keepalive_index_plus_one := [],
          services_keepalive_time_cache := [("x", 5)] }
        (some "x")).1.services_keepalive_time_cache "x" = none) :=
  ⟨by decide,
   deregister_unknown_codename_creates_row
     { stream := [], claires := [("other", defaultClaireInfo)],
       latest_keepalive_index_plus_one := [],
       services_keepalive_time_cache := [("x", 5)] } "x" (by decide)⟩

theorem foldl_disconnectClaire_notmem (l : List String) (cs : List (String × ClaireInfo))
    (c : String) (hc : c ∉ l) :
    assocLookup (l.foldl disconnectClaire cs) c = assocLookup cs c := by
  induction l generalizing cs with
  | nil => rfl
  | cons d rest ih =>
      have hd : d ≠ c := fun h => hc (h ▸ List.mem_cons_self d rest)
      have hrest : c ∉ rest := fun h => hc (List.mem_cons_of_mem _ h)
      rw [List.foldl_cons, ih _ hrest]
      exact assocLookup_assocSet_ne cs d c _ hd

theorem foldl_disconnectClaire_mem (l : List String) (cs : List (String × ClaireInfo))
    (c : String) (hc : c ∈ l) (hnd : l.Nodup) :
    assocLookup (l.foldl disconnectClaire cs) c =
      some (markDisconnected (assocLookup cs c) c) := by
  induction l generalizing cs with
  | nil => cases hc
  | cons d rest ih =>
      rw [List.foldl_cons]
      rcases List.mem_cons.mp hc with h | h
      · subst h
        have hrest : c ∉ rest := (List.nodup_cons.mp hnd).1
        rw [foldl_disconnectClaire_notmem rest _ c hrest]
        exact assocLookup_assocSet_self cs c _
      · have hnd' : rest.Nodup := (List.nodup_cons.mp hnd).2
        have hdc : d ≠ c := fun he => (List.nodup_cons.mp hnd).1 (he ▸ h)
        rw [ih _ h hnd',
            show assocLookup (disconnectClaire cs d) c = assocLookup cs c from
              assocLookup_assocSet_ne cs d c _ hdc]

/-- C7: one reconciler iteration keeps exactly the cache entries with
`now - last ≤ service_timeout_interval` (unchanged), and every dropped
codename is upserted in the store to `DisconnectedByTimeout`, preserving
the fields of an existing row and creating a skeletal row carrying the
codename otherwise (karl.h lines 225–257).  The hypothesis reflects the
`unordered_map`'s unique keys. -/
theorem reconciler_partition_and_disconnect
    (st : KarlState) (now timeout : Int)
    (hnd : (st.services_keepalive_time_cache.map Prod.fst).Nodup) :
    (∀ c t, (c, t) ∈ (stateUpdateIteration st now timeout).services_keepalive_time_cache ↔
        ((c, t) ∈ st.services_keepalive_time_cache ∧ now - t ≤ timeout)) ∧
    (∀ c t, (c, t) ∈ st.services_keepalive_time_cache → timeout < now - t →
        assocLookup (stateUpdateIteration st now timeout).claires c =
          some (markDisconnected (assocLookup st.claires c) c)) := by
  constructor
  · intro c t
    simp [stateUpdateIteration, survivingCache, List.mem_filter, not_lt]
  · intro c t hmem hto
    have hcmem : c ∈ timedOutCodenames st.services_keepalive_time_cache now timeout := by
      simp only [timedOutCodenames, List.mem_map, List.mem_filter]
      exact ⟨(c, t), ⟨hmem, by simpa using hto⟩, rfl⟩
    have hsub : (timedOutCodenames st.services_keepalive_time_cache now timeout).Sublist
        (st.services_keepalive_time_cache.map Prod.fst) :=
      (List.filter_sublist _).map Prod.fst
    have hndto : (timedOutCodenames st.services_keepalive_time_cache now timeout).Nodup :=
      hnd.sublist hsub
    exact foldl_disconnectClaire_mem _ _ c hcmem hndto

/-- A Karl whose keepalive time cache holds `a` (stale by 100µs) and `b`
(fresh), for exercising the reconciler. -/
def reconcilerWitnessState : KarlState :=
  { stream := [], claires := [], latest_keepalive_index_plus_one := [],
    services_keepalive_time_cache := [("a", 0), ("b", 100)] }

/-- C7 witness: the reconciler at `now = 100` with a 50µs timeout on
`reconcilerWitnessState`. -/
theorem reconciler_partition_and_disconnect_witness :
    (reconcilerWitnessState.services_keepalive_time_cache.map Prod.fst).Nodup ∧
    ((∀ c t,
        (c, t) ∈ (stateUpdateIteration reconcilerWitnessState 100 50).services_keepalive_time_cache ↔
          ((c, t) ∈ reconcilerWitnessState.services_keepalive_time_cache ∧ 100 - t ≤ 50)) ∧
     (∀ c t, (c, t) ∈ reconcilerWitnessState.services_keepalive_time_cache → 50 < 100 - t →
        assocLookup (stateUpdateIteration reconcilerWitnessState 100 50).claires c =
          some (markDisconnected (assocLookup reconcilerWitnessState.claires c) c))) :=
  ⟨by decide, reconciler_partition_and_disconnect reconcilerWitnessState 100 50 (by decide)⟩

theorem foldl_report_lookup (l : List StreamRecord) (m : List (String × ProtoReport))
    (c : String) (now timeout : Int) :
    assocLookup
        (l.foldl
          (fun acc e => assocSet acc e.entry.keepalive.codename (mkProtoReport e now timeout))
          m) c =
      match (l.filter (fun x => x.entry.keepalive.codename == c)).getLast? with
      | some e => some (mkProtoReport e now timeout)
      | none => assocLookup m c := by
  induction l using List.reverseRecOn with
  | nil => rfl
  | append_singleton l' e ih =>
      rw [List.foldl_append, List.foldl_cons, List.foldl_nil]
      by_cases hk : e.entry.keepalive.codename = c
      · rw [hk, assocLookup_assocSet_self, List.filter_append]
        have hfe : List.filter (fun x => x.entry.keepalive.codename == c) [e] = [e] := by
          simp [List.filter_cons, hk]
        rw [hfe, List.getLast?_concat]
      · rw [assocLookup_assocSet_ne _ _ _ _ hk, ih, List.filter_append]
        have hfe : List.filter (fun x => x.entry.keepalive.codename == c) [e] = [] := by
          simp [List.filter_cons, hk]
        rw [hfe, List.append_nil]

theorem pairwise_getLast {α : Type} (R : α → α → Prop) (l : List α) (e : α)
    (hp : l.Pairwise R) (hl : l.getLast? = some e) :
    ∀ x ∈ l, x = e ∨ R x e := by
  induction l using List.reverseRecOn with
  | nil => cases hl
  | append_singleton l' a _ =>
      rw [List.getLast?_concat] at hl
      injection hl with ha
      subst ha
      intro x hx
      rcases List.mem_append.mp hx with hx' | hx'
      · exact Or.inr ((List.pairwise_append.mp hp).2.2 x hx' a (List.mem_singleton.mpr rfl))
      · exact Or.inl (List.mem_singleton.mp hx')

/-- C9: when the in-window entries for a codename are nonempty, the
per-codename report is the one built from the last such entry in stream
order (each entry overwrites the map slot, karl.h line 612); that report
is tagged `up` exactly when `now - timestamp < service_timeout_interval`
(strictly), and `down` otherwise, carrying the keepalive's reported
`uptime` (karl.h lines 596–608); and under the stream's strictly
increasing timestamps the chosen entry is the latest-timestamped one. -/
theorem status_report_uses_latest_window_entry
    (log : List StreamRecord) (fromTime toTime now timeout : Int) (c : String)
    (e : StreamRecord)
    (hlast : ((windowEntries log fromTime toTime).filter
        (fun x => x.entry.keepalive.codename == c)).getLast? = some e) :
    assocLookup (reportForCodename log fromTime toTime now timeout) c =
      some (mkProtoReport e now timeout) ∧
    (now - e.idx_ts.us < timeout →
      (mkProtoReport e now timeout).currently =
        ServiceCurrently.up e.entry.keepalive.start_time_epoch_microseconds e.idx_ts.us
          (e.entry.keepalive.uptime_epoch_microseconds + (now - e.idx_ts.us))) ∧
    (timeout ≤ now - e.idx_ts.us →
      (mkProtoReport e now timeout).currently =
        ServiceCurrently.down e.entry.keepalive.start_time_epoch_microseconds e.idx_ts.us
          e.entry.keepalive.uptime) ∧
    (List.Pairwise (fun a b => a.idx_ts.us < b.idx_ts.us) log →
      ∀ x ∈ (windowEntries log fromTime toTime).filter
          (fun x => x.entry.keepalive.codename == c),
        x.idx_ts.us ≤ e.idx_ts.us) := by
  refine ⟨?_, ?_, ?_, ?_⟩
  · have h1 := foldl_report_lookup (windowEntries log fromTime toTime) [] c now timeout
    rw [hlast] at h1
    exact h1
  · intro h
    simp [mkProtoReport, h]
  · intro h
    simp [mkProtoReport, not_lt.mpr h]
  · intro hmono x hx
    have hsub : ((windowEntries log fromTime toTime).filter
        (fun x => x.entry.keepalive.codename == c)).Sublist log :=
      (List.filter_sublist _).trans (List.filter_sublist _)
    have hpw := List.Pairwise.sublist hsub hmono
    rcases pairwise_getLast _ _ e hpw hlast x hx with he | hlt
    · exact he ▸ le_refl _
    · exact le_of_lt hlt

/-- The first of two in-window keepalive entries for `svcA` (index 0,
timestamp 10). -/
def reportWitnessEntry1 : StreamRecord :=
  { idx_ts := { index := 0, us := 10 }
    entry :=
      { location := { ip := "10.0.0.1", port := 7000, pfx := "/" }
        keepalive :=
          { codename := "svcA", service := "S", local_port := 7000, dependencies := [],
            build := none, start_time_epoch_microseconds := 1,
            uptime_epoch_microseconds := 9, uptime := "9us",
            last_successful_ping_epoch_microseconds := none, now := 0 } } }

/-- The second of two in-window keepalive entries for `svcA` (index 1,
timestamp 20). -/
def reportWitnessEntry2 : StreamRecord :=
  { idx_ts := { index := 1, us := 20 }
    entry :=
      { location := { ip := "10.0.0.1", port := 7000, pfx := "/" }
        keepalive :=
          { codename := "svcA", service := "S", local_port := 7000, dependencies := [],
            build := none, start_time_epoch_microseconds := 1,
            uptime_epoch_microseconds := 19, uptime := "19us",
            last_successful_ping_epoch_microseconds := none, now := 0 } } }

/-- C9 witness: a two-entry log for `svcA`, window [0, 100), queried at
`now = 30` with a 45µs timeout. -/
theorem status_report_uses_latest_window_entry_witness :
    ((windowEntries [reportWitnessEntry1, reportWitnessEntry2] 0 100).filter
        (fun x => x.entry.keepalive.codename == "svcA")).getLast? =
      some reportWitnessEntry2 ∧
    (assocLookup
        (reportForCodename [reportWitnessEntry1, reportWitnessEntry2] 0 100 30 45) "svcA" =
        some (mkProtoReport reportWitnessEntry2 30 45) ∧
      (30 - reportWitnessEntry2.idx_ts.us < 45 →
        (mkProtoReport reportWitnessEntry2 30 45).currently =
          ServiceCurrently.up reportWitnessEntry2.entry.keepalive.start_time_epoch_microseconds
            reportWitnessEntry2.idx_ts.us
            (reportWitnessEntry2.entry.keepalive.uptime_epoch_microseconds +
              (30 - reportWitnessEntry2.idx_ts.us))) ∧
      (45 ≤ 30 - reportWitnessEntry2.idx_ts.us →
        (mkProtoReport reportWitnessEntry2 30 45).currently =
          ServiceCurrently.down reportWitnessEntry2.entry.keepalive.start_time_epoch_microseconds
            reportWitnessEntry2.idx_ts.us reportWitnessEntry2.entry.keepalive.uptime) ∧
      (List.Pairwise (fun a b => a.idx_ts.us < b.idx_ts.us)
          [reportWitnessEntry1, reportWitnessEntry2] →
        ∀ x ∈ (windowEntries [reportWitnessEntry1, reportWitnessEntry2] 0 100).filter
            (fun x => x.entry.keepalive.codename == "svcA"),
          x.idx_ts.us ≤ reportWitnessEntry2.idx_ts.us)) := by
  constructor
  · decide
  · exact status_report_uses_latest_window_entry [reportWitnessEntry1, reportWitnessEntry2]
      0 100 30 45 "svcA" reportWitnessEntry2 (by decide)

end KarlSpec
